import Mathlib

/-!
Verification of the tockloader protocol codec (`src/lib.rs`).

The Rust crate implements a byte-stuffed serial protocol: two incremental
byte-at-a-time decoders (`CommandDecoder`, `ResponseDecoder`) and two lazy
byte-sequence encoders (`CommandEncoder`, `ResponseEncoder`).  This file is a
shallow embedding of that code: bytes are `Nat`s (wire bytes are `u8`, so
theorems about wire input quantify over values below 256 where it matters),
the decoders' fixed 520-byte scratch buffer plus its `count` field is
represented by the list of stored bytes (`count = buffer.length`; `load_char`
appends only while the length is below 520, exactly as the Rust code only
stores while `count < 520`), and `Result<T, Error>` becomes `Except Error T`.
-/

set_option maxRecDepth 10000

-- ===========================================================================
-- Wire constants (verbatim from the source)
-- ===========================================================================

def ESCAPE_CHAR : Nat := 0xFC

def CMD_PING : Nat := 0x01
def CMD_INFO : Nat := 0x03
def CMD_ID : Nat := 0x04
def CMD_RESET : Nat := 0x05
def CMD_EPAGE : Nat := 0x06
def CMD_WPAGE : Nat := 0x07
def CMD_XEBLOCK : Nat := 0x08
def CMD_XWPAGE : Nat := 0x09
def CMD_CRCRX : Nat := 0x10
def CMD_RRANGE : Nat := 0x11
def CMD_XRRANGE : Nat := 0x12
def CMD_SATTR : Nat := 0x13
def CMD_GATTR : Nat := 0x14
def CMD_CRCIF : Nat := 0x15
def CMD_CRCEF : Nat := 0x16
def CMD_XEPAGE : Nat := 0x17
def CMD_XFINIT : Nat := 0x18
def CMD_CLKOUT : Nat := 0x19
def CMD_WUSER : Nat := 0x20
def CMD_CHANGE_BAUD : Nat := 0x21

def RES_OVERFLOW : Nat := 0x10
def RES_PONG : Nat := 0x11
def RES_BADADDR : Nat := 0x12
def RES_INTERROR : Nat := 0x13
def RES_BADARGS : Nat := 0x14
def RES_OK : Nat := 0x15
def RES_UNKNOWN : Nat := 0x16
def RES_XFTIMEOUT : Nat := 0x17
def RES_XFEPE : Nat := 0x18
def RES_CRCRX : Nat := 0x19
def RES_RRANGE : Nat := 0x20
def RES_XRRANGE : Nat := 0x21
def RES_GATTR : Nat := 0x22
def RES_CRCIF : Nat := 0x23
def RES_CRCXF : Nat := 0x24
def RES_INFO : Nat := 0x25
def RES_CHANGE_BAUD_FAIL : Nat := 0x26

def MAX_INDEX : Nat := 16
def KEY_LEN : Nat := 8
def MAX_ATTR_LEN : Nat := 55
def INT_PAGE_SIZE : Nat := 512
def EXT_PAGE_SIZE : Nat := 256
def MAX_INFO_LEN : Nat := 192

-- ===========================================================================
-- Data model
-- ===========================================================================

inductive BaudMode where
  | Set
  | Verify
deriving DecidableEq, Repr

inductive Command where
  | Ping
  | Info
  | Id
  | Reset
  | ErasePage (address : Nat)
  | WritePage (address : Nat) (data : List Nat)
  | EraseExBlock (address : Nat)
  | WriteExPage (address : Nat) (data : List Nat)
  | CrcRxBuffer
  | ReadRange (address : Nat) (length : Nat)
  | ExReadRange (address : Nat) (length : Nat)
  | SetAttr (index : Nat) (key : List Nat) (value : List Nat)
  | GetAttr (index : Nat)
  | CrcIntFlash (address : Nat) (length : Nat)
  | CrcExtFlash (address : Nat) (length : Nat)
  | EraseExPage (address : Nat)
  | ExtFlashInit
  | ClockOut
  | WriteFlashUserPages (page1 : Nat) (page2 : Nat)
  | ChangeBaud (mode : BaudMode) (baud : Nat)
deriving DecidableEq, Repr

inductive Response where
  | Overflow
  | Pong
  | BadAddress
  | InternalError
  | BadArguments
  | Ok
  | Unknown
  | ExtFlashTimeout
  | ExtFlashPageError
  | CrcRxBuffer (length : Nat) (crc : Nat)
  | ReadRange (data : List Nat)
  | ExReadRange (data : List Nat)
  | GetAttr (key : List Nat) (value : List Nat)
  | CrcIntFlash (crc : Nat)
  | CrcExtFlash (crc : Nat)
  | Info (info : List Nat)
  | ChangeBaudFail
deriving DecidableEq, Repr

inductive Error where
  | UnknownCommand
  | BadArguments
  | UnsetLength
  | SetLength
deriving DecidableEq, Repr

inductive DecoderState where
  | Loading
  | Escape
deriving DecidableEq, Repr

deriving instance DecidableEq for Except

/-- `byteorder::LittleEndian::read_u16` on the two stored bytes at `i`. -/
def readU16 (buf : List Nat) (i : Nat) : Nat :=
  buf.getD i 0 + 256 * buf.getD (i + 1) 0

/-- `byteorder::LittleEndian::read_u32` on the four stored bytes at `i`. -/
def readU32 (buf : List Nat) (i : Nat) : Nat :=
  buf.getD i 0 + 256 * buf.getD (i + 1) 0 + 65536 * buf.getD (i + 2) 0 +
    16777216 * buf.getD (i + 3) 0

/-- The little-endian byte image of a `u32` value, exactly the four bytes
`value as u8`, `(value >> 8) as u8`, `(value >> 16) as u8`, `(value >> 24) as u8`
that `render_u32` emits. -/
def le32 (value : Nat) : List Nat :=
  [value % 256, value / 256 % 256, value / 65536 % 256, value / 16777216 % 256]

/-- The little-endian byte image of a `u16` value, as emitted by `render_u16`. -/
def le16 (value : Nat) : List Nat :=
  [value % 256, value / 256 % 256]

-- ===========================================================================
-- Command decoder
-- ===========================================================================

/-- `CommandDecoder`: framing state plus the stored prefix of the 520-byte
scratch buffer (`count` is `buffer.length`). -/
structure CommandDecoder where
  state : DecoderState
  buffer : List Nat
deriving DecidableEq, Repr

def cmdDecoderNew : CommandDecoder := ⟨DecoderState.Loading, []⟩

/-- `CommandDecoder::reset`: empties the RX buffer (`count = 0`); the framing
state is untouched. -/
def cmdReset (d : CommandDecoder) : CommandDecoder := ⟨d.state, []⟩

/-- `CommandDecoder::load_char`: store the byte while fewer than 520 bytes are
buffered, else drop it silently. -/
def cmdLoadChar (d : CommandDecoder) (ch : Nat) : CommandDecoder :=
  if d.buffer.length < 520 then ⟨d.state, d.buffer ++ [ch]⟩ else d

/-- The opcode dispatch of `CommandDecoder::handle_escape`: reinterpret the
buffered bytes according to the marker byte `ch`.  Arm order and all byte
offsets follow the source. -/
def cmdDispatch (buf : List Nat) (ch : Nat) : Except Error (Option Command) :=
  let count := buf.length
  if ch = CMD_PING then .ok (some .Ping)
  else if ch = CMD_INFO then .ok (some .Info)
  else if ch = CMD_ID then .ok (some .Id)
  else if ch = CMD_RESET then .ok (some .Reset)
  else if ch = CMD_EPAGE then
    if count = 4 then .ok (some (.ErasePage (readU32 buf 0)))
    else .error .BadArguments
  else if ch = CMD_WPAGE then
    if count = INT_PAGE_SIZE + 4 then
      .ok (some (.WritePage (readU32 buf 0) ((buf.drop 4).take INT_PAGE_SIZE)))
    else .error .BadArguments
  else if ch = CMD_XEBLOCK then
    if count = 4 then .ok (some (.EraseExBlock (readU32 buf 0)))
    else .error .BadArguments
  else if ch = CMD_XWPAGE then
    if count = EXT_PAGE_SIZE + 4 then
      .ok (some (.WriteExPage (readU32 buf 0) ((buf.drop 4).take EXT_PAGE_SIZE)))
    else .error .BadArguments
  else if ch = CMD_CRCRX then .ok (some .CrcRxBuffer)
  else if ch = CMD_RRANGE then
    if count = 6 then .ok (some (.ReadRange (readU32 buf 0) (readU16 buf 4)))
    else .error .BadArguments
  else if ch = CMD_XRRANGE then
    if count = 6 then .ok (some (.ExReadRange (readU32 buf 0) (readU16 buf 4)))
    else .error .BadArguments
  else if ch = CMD_SATTR then
    if count ≥ 10 then
      let index := buf.getD 0 0
      let key := (buf.drop 1).take 8
      let length := buf.getD 9 0
      if count > 10 + length then
        .ok (some (.SetAttr index key ((buf.drop 10).take length)))
      else .error .BadArguments
    else .error .BadArguments
  else if ch = CMD_GATTR then
    if count = 1 then .ok (some (.GetAttr (buf.getD 0 0)))
    else .error .BadArguments
  else if ch = CMD_CRCIF then
    if count = 8 then .ok (some (.CrcIntFlash (readU32 buf 0) (readU32 buf 4)))
    else .error .BadArguments
  else if ch = CMD_CRCEF then
    if count = 8 then .ok (some (.CrcExtFlash (readU32 buf 0) (readU32 buf 4)))
    else .error .BadArguments
  else if ch = CMD_XEPAGE then
    if count = 4 then .ok (some (.EraseExPage (readU32 buf 0)))
    else .error .BadArguments
  else if ch = CMD_XFINIT then .ok (some .ExtFlashInit)
  else if ch = CMD_CLKOUT then .ok (some .ClockOut)
  else if ch = CMD_WUSER then
    if count = 8 then
      .ok (some (.WriteFlashUserPages (readU32 buf 0) (readU32 buf 4)))
    else .error .BadArguments
  else if ch = CMD_CHANGE_BAUD then
    if count = 5 then
      let mode := buf.getD 0 0
      let baud := readU32 buf 1
      if mode = 0x01 then .ok (some (.ChangeBaud .Set baud))
      else if mode = 0x02 then .ok (some (.ChangeBaud .Verify baud))
      else .error .BadArguments
    else .error .BadArguments
  else .ok none

/-- True exactly when the Rust post-processing of `handle_escape` clears the
buffered count: on `Ok(Some(_))` and on `Err(_)`, i.e. on everything but
`Ok(None)`. -/
def resultClears : Except Error (Option Command) → Bool
  | .ok none => false
  | _ => true

/-- `CommandDecoder::handle_escape`: a second sentinel is a literal `0xFC`;
any other byte is dispatched as an opcode marker.  A decoded command or an
error clears the buffered count. -/
def cmdHandleEscape (d : CommandDecoder) (ch : Nat) :
    Except Error (Option Command) × CommandDecoder :=
  if ch = ESCAPE_CHAR then
    (.ok none, cmdLoadChar ⟨DecoderState.Loading, d.buffer⟩ ch)
  else
    let result := cmdDispatch d.buffer ch
    (result, ⟨DecoderState.Loading, if resultClears result then [] else d.buffer⟩)

/-- `CommandDecoder::receive`. -/
def cmdReceive (d : CommandDecoder) (ch : Nat) :
    Except Error (Option Command) × CommandDecoder :=
  match d.state with
  | DecoderState.Loading =>
    if ch = ESCAPE_CHAR then (.ok none, ⟨DecoderState.Escape, d.buffer⟩)
    else (.ok none, cmdLoadChar d ch)
  | DecoderState.Escape => cmdHandleEscape d ch

/-- Feed a byte list one byte at a time, collecting every `receive` result. -/
def cmdRun : CommandDecoder → List Nat → List (Except Error (Option Command)) × CommandDecoder
  | d, [] => ([], d)
  | d, ch :: rest =>
    ((cmdReceive d ch).fst :: (cmdRun (cmdReceive d ch).snd rest).fst,
     (cmdRun (cmdReceive d ch).snd rest).snd)

-- ===========================================================================
-- Response decoder
-- ===========================================================================

/-- `ResponseDecoder`: framing state, stored buffer prefix, and the armed
expected total buffered count (`needed`). -/
structure ResponseDecoder where
  state : DecoderState
  buffer : List Nat
  needed : Option Nat
deriving DecidableEq, Repr

def rspDecoderNew : ResponseDecoder := ⟨DecoderState.Loading, [], none⟩

/-- `ResponseDecoder::reset`: empties the RX buffer (`count = 0`); the framing
state and the armed length are untouched. -/
def rspReset (d : ResponseDecoder) : ResponseDecoder := ⟨d.state, [], d.needed⟩

/-- `ResponseDecoder::set_payload_len`: arm an expected total buffered count of
`length + 1`; fails with `SetLength` while a length is already armed. -/
def rspSetPayloadLen (d : ResponseDecoder) (length : Nat) :
    Except Error Unit × ResponseDecoder :=
  match d.needed with
  | some _ => (.error .SetLength, d)
  | none => (.ok (), ⟨d.state, d.buffer, some (length + 1)⟩)

/-- The reassembly dispatch inside `ResponseDecoder::load_char`, performed on
the opcode stored in buffer slot 0 once the armed count is reached. -/
def rspDispatch (buf : List Nat) : Except Error (Option Response) :=
  let count := buf.length
  if buf.getD 0 0 = RES_CRCRX then
    .ok (some (.CrcRxBuffer (readU16 buf 1) (readU32 buf 3)))
  else if buf.getD 0 0 = RES_RRANGE then .ok (some (.ReadRange (buf.drop 1)))
  else if buf.getD 0 0 = RES_XRRANGE then .ok (some (.ExReadRange (buf.drop 1)))
  else if buf.getD 0 0 = RES_GATTR then
    let key := (buf.drop 1).take 8
    let length := buf.getD 9 0
    if 9 + length ≤ count then .ok (some (.GetAttr key ((buf.drop 10).take length)))
    else .error .BadArguments
  else if buf.getD 0 0 = RES_CRCIF then .ok (some (.CrcIntFlash (readU32 buf 1)))
  else if buf.getD 0 0 = RES_CRCXF then .ok (some (.CrcExtFlash (readU32 buf 1)))
  else if buf.getD 0 0 = RES_INFO then .ok (some (.Info (buf.drop 1)))
  else .error .UnknownCommand

/-- `ResponseDecoder::load_char`: store the byte (while below capacity); if the
armed count is now reached, reassemble and clear both the buffer and the armed
length. -/
def rspLoadChar (d : ResponseDecoder) (ch : Nat) :
    Except Error (Option Response) × ResponseDecoder :=
  let buf := if d.buffer.length < 520 then d.buffer ++ [ch] else d.buffer
  if d.needed = some buf.length then
    (rspDispatch buf, ⟨d.state, [], none⟩)
  else
    (.ok none, ⟨d.state, buf, d.needed⟩)

/-- The `self.load_char(ch)?; Ok(None)` sequencing used by the marker arms of
`ResponseDecoder::handle_escape`: errors propagate, values are discarded. -/
def rspLoadSwallow (d : ResponseDecoder) (ch : Nat) :
    Except Error (Option Response) × ResponseDecoder :=
  match rspLoadChar d ch with
  | (.error e, d') => (.error e, d')
  | (.ok _, d') => (.ok none, d')

/-- The `self.set_payload_len(n)?; self.load_char(ch)?; Ok(None)` sequencing
used by the auto-arming marker arms of `ResponseDecoder::handle_escape`. -/
def rspArmAndLoad (d : ResponseDecoder) (n : Nat) (ch : Nat) :
    Except Error (Option Response) × ResponseDecoder :=
  match rspSetPayloadLen d n with
  | (.error e, d') => (.error e, d')
  | (.ok _, d') => rspLoadSwallow d' ch

/-- `ResponseDecoder::handle_escape`.  Self-terminating responses complete
immediately and clear both counters; length-bearing markers buffer the opcode
byte after (auto-)arming; `ReadRange`/`ExReadRange` markers require a prior
arming and fail with `UnsetLength` otherwise; anything unknown falls through
to `Ok(None)`. -/
def rspHandleEscape (d : ResponseDecoder) (ch : Nat) :
    Except Error (Option Response) × ResponseDecoder :=
  let d : ResponseDecoder := ⟨DecoderState.Loading, d.buffer, d.needed⟩
  if ch = ESCAPE_CHAR then rspLoadChar d ch
  else if ch = RES_PONG then (.ok (some .Pong), ⟨d.state, [], none⟩)
  else if ch = RES_OVERFLOW then (.ok (some .Overflow), ⟨d.state, [], none⟩)
  else if ch = RES_BADADDR then (.ok (some .BadAddress), ⟨d.state, [], none⟩)
  else if ch = RES_INTERROR then (.ok (some .InternalError), ⟨d.state, [], none⟩)
  else if ch = RES_BADARGS then (.ok (some .BadArguments), ⟨d.state, [], none⟩)
  else if ch = RES_OK then (.ok (some .Ok), ⟨d.state, [], none⟩)
  else if ch = RES_UNKNOWN then (.ok (some .Unknown), ⟨d.state, [], none⟩)
  else if ch = RES_XFTIMEOUT then (.ok (some .ExtFlashTimeout), ⟨d.state, [], none⟩)
  else if ch = RES_XFEPE then (.ok (some .ExtFlashPageError), ⟨d.state, [], none⟩)
  else if ch = RES_CHANGE_BAUD_FAIL then (.ok (some .ChangeBaudFail), ⟨d.state, [], none⟩)
  else if ch = RES_CRCRX then rspArmAndLoad d 6 ch
  else if ch = RES_RRANGE then
    if d.needed = none then (.error .UnsetLength, d) else rspLoadSwallow d ch
  else if ch = RES_XRRANGE then
    if d.needed = none then (.error .UnsetLength, d) else rspLoadSwallow d ch
  else if ch = RES_GATTR then rspArmAndLoad d (1 + 8 + 55) ch
  else if ch = RES_CRCIF then rspArmAndLoad d 4 ch
  else if ch = RES_CRCXF then rspArmAndLoad d 4 ch
  else if ch = RES_INFO then rspArmAndLoad d 8 ch
  else (.ok none, d)

/-- `ResponseDecoder::receive`. -/
def rspReceive (d : ResponseDecoder) (ch : Nat) :
    Except Error (Option Response) × ResponseDecoder :=
  match d.state with
  | DecoderState.Loading =>
    if ch = ESCAPE_CHAR then (.ok none, ⟨DecoderState.Escape, d.buffer, d.needed⟩)
    else rspLoadChar d ch
  | DecoderState.Escape => rspHandleEscape d ch

/-- Feed a byte list one byte at a time, collecting every `receive` result. -/
def rspRun : ResponseDecoder → List Nat → List (Except Error (Option Response)) × ResponseDecoder
  | d, [] => ([], d)
  | d, ch :: rest =>
    ((rspReceive d ch).fst :: (rspRun (rspReceive d ch).snd rest).fst,
     (rspRun (rspReceive d ch).snd rest).snd)

-- ===========================================================================
-- Command encoder
-- ===========================================================================

/-- `CommandEncoder`: the command being rendered, the logical position
counter, and the escape-pending flag. -/
structure CommandEncoder where
  command : Command
  count : Nat
  sent_escape : Bool
deriving DecidableEq, Repr

/-- `CommandEncoder::new`: bounds-check the slice-bearing variants; every
other variant is accepted unconditionally. -/
def cmdEncoderNew (command : Command) : Except Error CommandEncoder :=
  match command with
  | .WritePage _ data =>
    if data.length ≠ INT_PAGE_SIZE then .error .BadArguments
    else .ok ⟨command, 0, false⟩
  | .WriteExPage _ data =>
    if data.length ≠ EXT_PAGE_SIZE then .error .BadArguments
    else .ok ⟨command, 0, false⟩
  | .SetAttr index key value =>
    if index > MAX_INDEX then .error .BadArguments
    else if key.length ≠ KEY_LEN then .error .BadArguments
    else if value.length > MAX_ATTR_LEN then .error .BadArguments
    else .ok ⟨command, 0, false⟩
  | _ => .ok ⟨command, 0, false⟩

/-- `CommandEncoder::render_byte`: result is `(count increment, emitted byte,
new sent_escape flag)`.  A literal sentinel is emitted twice: first with no
position advance and the flag raised, then with an advance. -/
def render_byte (esc : Bool) (byte : Nat) : Nat × Option Nat × Bool :=
  if byte = ESCAPE_CHAR then
    if esc then (1, some ESCAPE_CHAR, false)
    else (0, some ESCAPE_CHAR, true)
  else (1, some byte, false)

/-- `CommandEncoder::render_u16`. -/
def render_u16 (esc : Bool) (idx : Nat) (value : Nat) : Nat × Option Nat × Bool :=
  if idx = 0 then render_byte esc (value % 256)
  else if idx = 1 then render_byte esc (value / 256 % 256)
  else (0, none, esc)

/-- `CommandEncoder::render_u32`. -/
def render_u32 (esc : Bool) (idx : Nat) (value : Nat) : Nat × Option Nat × Bool :=
  if idx = 0 then render_byte esc (value % 256)
  else if idx = 1 then render_byte esc (value / 256 % 256)
  else if idx = 2 then render_byte esc (value / 65536 % 256)
  else if idx = 3 then render_byte esc (value / 16777216 % 256)
  else (0, none, esc)

/-- `CommandEncoder::render_buffer`: render `data[idx]` inside the region,
pad short data with `0xFF` up to `page_size`, and signal exhaustion past the
region. -/
def render_buffer (esc : Bool) (idx page_size : Nat) (data : List Nat) :
    Nat × Option Nat × Bool :=
  if idx < data.length ∧ idx < page_size then render_byte esc (data.getD idx 0)
  else if idx < page_size then render_byte esc 0xFF
  else (0, none, esc)

/-- `CommandEncoder::render_basic_cmd`: the sentinel+opcode trailer, emitted
raw (no escaping, the flag is untouched). -/
def render_basic_cmd (count : Nat) (cmd : Nat) (esc : Bool) :
    Nat × Option Nat × Bool :=
  if count = 0 then (1, some ESCAPE_CHAR, esc)
  else if count = 1 then (1, some cmd, esc)
  else (0, none, esc)

def render_erasepage_cmd (count : Nat) (esc : Bool) (address : Nat) :
    Nat × Option Nat × Bool :=
  if count ≤ 3 then render_u32 esc count address
  else render_basic_cmd (count - 4) CMD_EPAGE esc

def render_writepage_cmd (count : Nat) (esc : Bool) (address : Nat)
    (data : List Nat) : Nat × Option Nat × Bool :=
  if count ≤ 3 then render_u32 esc count address
  else if count ≤ 515 then render_buffer esc (count - 4) INT_PAGE_SIZE data
  else render_basic_cmd (count - 516) CMD_WPAGE esc

def render_eraseexblock (count : Nat) (esc : Bool) (address : Nat) :
    Nat × Option Nat × Bool :=
  if count ≤ 3 then render_u32 esc count address
  else render_basic_cmd (count - 4) CMD_XEBLOCK esc

def render_writeexpage (count : Nat) (esc : Bool) (address : Nat)
    (data : List Nat) : Nat × Option Nat × Bool :=
  if count ≤ 3 then render_u32 esc count address
  else if count ≤ 259 then render_buffer esc (count - 4) EXT_PAGE_SIZE data
  else render_basic_cmd (count - (EXT_PAGE_SIZE + 4)) CMD_XWPAGE esc

def render_readrange (count : Nat) (esc : Bool) (address : Nat) (length : Nat) :
    Nat × Option Nat × Bool :=
  if count ≤ 3 then render_u32 esc count address
  else if count ≤ 5 then render_u16 esc (count - 4) length
  else render_basic_cmd (count - 6) CMD_RRANGE esc

def render_exreadrange (count : Nat) (esc : Bool) (address : Nat) (length : Nat) :
    Nat × Option Nat × Bool :=
  if count ≤ 3 then render_u32 esc count address
  else if count ≤ 5 then render_u16 esc (count - 4) length
  else render_basic_cmd (count - 6) CMD_XRRANGE esc

/-- `CommandEncoder::render_setattr`, byte for byte as in the source: the
`1...9` arm covers count 9, where `render_buffer(8, KEY_LEN, key)` is past
both the key and the 8-byte region and yields `(0, None)`. -/
def render_setattr (count : Nat) (esc : Bool) (index : Nat)
    (key value : List Nat) : Nat × Option Nat × Bool :=
  let max_len := if value.length > MAX_ATTR_LEN then MAX_ATTR_LEN else value.length
  if count = 0 then render_byte esc index
  else if count ≤ 9 then render_buffer esc (count - 1) KEY_LEN key
  else if count = 10 then render_byte esc max_len
  else if max_len > 0 ∧ count < max_len + 11 then
    render_buffer esc (count - 11) max_len value
  else render_basic_cmd (count - (11 + max_len)) CMD_SATTR esc

def render_getattr (count : Nat) (esc : Bool) (index : Nat) :
    Nat × Option Nat × Bool :=
  if count = 0 then render_byte esc index
  else render_basic_cmd (count - 1) CMD_GATTR esc

def render_crcintflash (count : Nat) (esc : Bool) (address : Nat) (length : Nat) :
    Nat × Option Nat × Bool :=
  if count ≤ 3 then render_u32 esc count address
  else if count ≤ 7 then render_u32 esc (count - 4) length
  else render_basic_cmd (count - 8) CMD_CRCIF esc

def render_crcextflash (count : Nat) (esc : Bool) (address : Nat) (length : Nat) :
    Nat × Option Nat × Bool :=
  if count ≤ 3 then render_u32 esc count address
  else if count ≤ 7 then render_u32 esc (count - 4) length
  else render_basic_cmd (count - 8) CMD_CRCEF esc

def render_eraseexpage (count : Nat) (esc : Bool) (address : Nat) :
    Nat × Option Nat × Bool :=
  if count ≤ 3 then render_u32 esc count address
  else render_basic_cmd (count - 4) CMD_XEPAGE esc

def render_writeflashuserpages (count : Nat) (esc : Bool) (page1 page2 : Nat) :
    Nat × Option Nat × Bool :=
  if count ≤ 3 then render_u32 esc count page1
  else if count ≤ 7 then render_u32 esc (count - 4) page2
  else render_basic_cmd (count - 8) CMD_WUSER esc

/-- Wrapping `usize` subtraction: the `count - 8` in `render_changebaud` is
reachable with `count = 4`, where Rust release-mode arithmetic wraps. -/
def usize_sub (a b : Nat) : Nat :=
  (a + 18446744073709551616 - b) % 18446744073709551616

/-- `CommandEncoder::render_changebaud`, byte for byte as in the source: the
`1...3` arm renders only `render_u32` indices 0 to 2 of the baud rate, and
the trailer arm is `render_basic_cmd(count - 8, CMD_WUSER)`. -/
def render_changebaud (count : Nat) (esc : Bool) (mode : BaudMode) (baud : Nat) :
    Nat × Option Nat × Bool :=
  if count = 0 then
    render_byte esc (match mode with | BaudMode.Set => 0x01 | BaudMode.Verify => 0x02)
  else if count ≤ 3 then render_u32 esc (count - 1) baud
  else render_basic_cmd (usize_sub count 8) CMD_WUSER esc

/-- One step of `<CommandEncoder as Iterator>::next`, as a function of the
command, position counter and escape flag. -/
def cmdEmit (c : Command) (count : Nat) (esc : Bool) : Nat × Option Nat × Bool :=
  match c with
  | .Ping => render_basic_cmd count CMD_PING esc
  | .Info => render_basic_cmd count CMD_INFO esc
  | .Id => render_basic_cmd count CMD_ID esc
  | .Reset => render_basic_cmd count CMD_RESET esc
  | .ErasePage address => render_erasepage_cmd count esc address
  | .WritePage address data => render_writepage_cmd count esc address data
  | .EraseExBlock address => render_eraseexblock count esc address
  | .WriteExPage address data => render_writeexpage count esc address data
  | .CrcRxBuffer => render_basic_cmd count CMD_CRCRX esc
  | .ReadRange address length => render_readrange count esc address length
  | .ExReadRange address length => render_exreadrange count esc address length
  | .SetAttr index key value => render_setattr count esc index key value
  | .GetAttr index => render_getattr count esc index
  | .CrcIntFlash address length => render_crcintflash count esc address length
  | .CrcExtFlash address length => render_crcextflash count esc address length
  | .EraseExPage address => render_eraseexpage count esc address
  | .ExtFlashInit => render_basic_cmd count CMD_XFINIT esc
  | .ClockOut => render_basic_cmd count CMD_CLKOUT esc
  | .WriteFlashUserPages page1 page2 => render_writeflashuserpages count esc page1 page2
  | .ChangeBaud mode baud => render_changebaud count esc mode baud

/-- `<CommandEncoder as Iterator>::next`: emit, then advance the position by
the returned increment and store the new escape flag. -/
def cmdNext (e : CommandEncoder) : Option Nat × CommandEncoder :=
  ((cmdEmit e.command e.count e.sent_escape).2.1,
   ⟨e.command, e.count + (cmdEmit e.command e.count e.sent_escape).1,
    (cmdEmit e.command e.count e.sent_escape).2.2⟩)

/-- Pull up to `fuel` bytes from the encoder, stopping at the first `None`. -/
def cmdEncodeList : CommandEncoder → Nat → List Nat
  | _, 0 => []
  | e, fuel + 1 =>
    match cmdNext e with
    | (some b, e') => b :: cmdEncodeList e' fuel
    | (none, _) => []

/-- The encoder emits exactly the bytes of `l` and then `None` forever:
every pull budget yields the corresponding prefix of `l`. -/
def EncodesTo (e : CommandEncoder) (l : List Nat) : Prop :=
  ∀ fuel, cmdEncodeList e fuel = l.take fuel

/-- The escape-byte framing rule applied to a payload: every literal sentinel
byte is doubled, every other byte passes through. -/
def escapeList : List Nat → List Nat
  | [] => []
  | b :: rest =>
    (if b = ESCAPE_CHAR then [ESCAPE_CHAR, ESCAPE_CHAR] else [b]) ++ escapeList rest

-- ===========================================================================
-- Response encoder
-- ===========================================================================

/-- `ResponseEncoder`: the response being rendered, the position counter, and
the escape-pending flag. -/
structure ResponseEncoder where
  response : Response
  count : Nat
  sent_escape : Bool
deriving DecidableEq, Repr

/-- `ResponseEncoder::new`: bounds-check `GetAttr` and `Info`; every other
variant is accepted unconditionally. -/
def rspEncoderNew (response : Response) : Except Error ResponseEncoder :=
  match response with
  | .GetAttr key value =>
    if key.length ≠ KEY_LEN then .error .BadArguments
    else if value.length > MAX_ATTR_LEN then .error .BadArguments
    else .ok ⟨response, 0, false⟩
  | .Info info =>
    if info.length > MAX_INFO_LEN then .error .BadArguments
    else .ok ⟨response, 0, false⟩
  | _ => .ok ⟨response, 0, false⟩

/-- `ResponseEncoder::render_byte`.  Unlike the command-side version it does
not reset the flag when emitting a plain byte. -/
def rsp_render_byte (esc : Bool) (byte : Nat) : Nat × Option Nat × Bool :=
  if byte = ESCAPE_CHAR then
    if esc then (1, some ESCAPE_CHAR, false)
    else (0, some ESCAPE_CHAR, true)
  else (1, some byte, esc)

/-- `ResponseEncoder::render_u16`. -/
def rsp_render_u16 (esc : Bool) (idx : Nat) (value : Nat) : Nat × Option Nat × Bool :=
  if idx = 0 then rsp_render_byte esc (value % 256)
  else if idx = 1 then rsp_render_byte esc (value / 256 % 256)
  else (0, none, esc)

/-- `ResponseEncoder::render_u32`. -/
def rsp_render_u32 (esc : Bool) (idx : Nat) (value : Nat) : Nat × Option Nat × Bool :=
  if idx = 0 then rsp_render_byte esc (value % 256)
  else if idx = 1 then rsp_render_byte esc (value / 256 % 256)
  else if idx = 2 then rsp_render_byte esc (value / 65536 % 256)
  else if idx = 3 then rsp_render_byte esc (value / 16777216 % 256)
  else (0, none, esc)

/-- `ResponseEncoder::render_buffer`. -/
def rsp_render_buffer (esc : Bool) (idx page_size : Nat) (data : List Nat) :
    Nat × Option Nat × Bool :=
  if idx < data.length ∧ idx < page_size then rsp_render_byte esc (data.getD idx 0)
  else if idx < page_size then rsp_render_byte esc 0xFF
  else (0, none, esc)

/-- `ResponseEncoder::render_header`: the sentinel+opcode header, emitted raw. -/
def render_header (count : Nat) (cmd : Nat) (esc : Bool) : Nat × Option Nat × Bool :=
  if count = 0 then (1, some ESCAPE_CHAR, esc)
  else if count = 1 then (1, some cmd, esc)
  else (0, none, esc)

def render_crc_rx_buffer (count : Nat) (esc : Bool) (length crc : Nat) :
    Nat × Option Nat × Bool :=
  if count ≤ 1 then render_header count RES_CRCRX esc
  else if count ≤ 3 then rsp_render_u16 esc (count - 2) length
  else if count ≤ 7 then rsp_render_u32 esc (count - 4) crc
  else (0, none, esc)

def render_read_range (count : Nat) (esc : Bool) (data : List Nat) :
    Nat × Option Nat × Bool :=
  if count ≤ 1 then render_header count RES_RRANGE esc
  else if count < data.length + 2 then rsp_render_byte esc (data.getD (count - 2) 0)
  else (0, none, esc)

def render_ex_read_range (count : Nat) (esc : Bool) (data : List Nat) :
    Nat × Option Nat × Bool :=
  if count ≤ 1 then render_header count RES_XRRANGE esc
  else if count - 2 < data.length then rsp_render_byte esc (data.getD (count - 2) 0)
  else (0, none, esc)

def render_get_attr (count : Nat) (esc : Bool) (key value : List Nat) :
    Nat × Option Nat × Bool :=
  if count ≤ 1 then render_header count RES_GATTR esc
  else if count ≤ 9 then rsp_render_buffer esc (count - 2) 8 key
  else if count = 10 then rsp_render_byte esc value.length
  else rsp_render_buffer esc (count - 11) MAX_ATTR_LEN value

def render_crc_int_flash (count : Nat) (esc : Bool) (crc : Nat) :
    Nat × Option Nat × Bool :=
  if count ≤ 1 then render_header count RES_CRCIF esc
  else rsp_render_u32 esc (count - 2) crc

def render_crc_ex_flash (count : Nat) (esc : Bool) (crc : Nat) :
    Nat × Option Nat × Bool :=
  if count ≤ 1 then render_header count RES_CRCXF esc
  else rsp_render_u32 esc (count - 2) crc

def render_info (count : Nat) (esc : Bool) (info : List Nat) :
    Nat × Option Nat × Bool :=
  if count ≤ 1 then render_header count RES_INFO esc
  else rsp_render_buffer esc (count - 2) info.length info

/-- One step of `<ResponseEncoder as Iterator>::next`. -/
def rspEmit (r : Response) (count : Nat) (esc : Bool) : Nat × Option Nat × Bool :=
  match r with
  | .Overflow => render_header count RES_OVERFLOW esc
  | .Pong => render_header count RES_PONG esc
  | .BadAddress => render_header count RES_BADADDR esc
  | .InternalError => render_header count RES_INTERROR esc
  | .BadArguments => render_header count RES_BADARGS esc
  | .Ok => render_header count RES_OK esc
  | .Unknown => render_header count RES_UNKNOWN esc
  | .ExtFlashTimeout => render_header count RES_XFTIMEOUT esc
  | .ExtFlashPageError => render_header count RES_XFEPE esc
  | .CrcRxBuffer length crc => render_crc_rx_buffer count esc length crc
  | .ReadRange data => render_read_range count esc data
  | .ExReadRange data => render_ex_read_range count esc data
  | .GetAttr key value => render_get_attr count esc key value
  | .CrcIntFlash crc => render_crc_int_flash count esc crc
  | .CrcExtFlash crc => render_crc_ex_flash count esc crc
  | .Info info => render_info count esc info
  | .ChangeBaudFail => render_header count RES_CHANGE_BAUD_FAIL esc

/-- `<ResponseEncoder as Iterator>::next`. -/
def rspNext (e : ResponseEncoder) : Option Nat × ResponseEncoder :=
  ((rspEmit e.response e.count e.sent_escape).2.1,
   ⟨e.response, e.count + (rspEmit e.response e.count e.sent_escape).1,
    (rspEmit e.response e.count e.sent_escape).2.2⟩)

/-- Pull up to `fuel` bytes from the response encoder, stopping at `None`. -/
def rspEncodeList : ResponseEncoder → Nat → List Nat
  | _, 0 => []
  | e, fuel + 1 =>
    match rspNext e with
    | (some b, e') => b :: rspEncodeList e' fuel
    | (none, _) => []

/-- The response encoder emits exactly the bytes of `l` and then `None`
forever. -/
def REncodesTo (e : ResponseEncoder) (l : List Nat) : Prop :=
  ∀ fuel, rspEncodeList e fuel = l.take fuel

/-- The canonical per-position behaviour of a command encoder whose wire image
is an escaped `payload` followed by the sentinel+opcode trailer. -/
def planStep (payload : List Nat) (op : Nat) (c : Nat) (esc : Bool) :
    Nat × Option Nat × Bool :=
  if c < payload.length then render_byte esc (payload.getD c 0)
  else render_basic_cmd (c - payload.length) op esc

/-- The marker bytes recognised by `ResponseDecoder::handle_escape` (besides
the sentinel itself), in the source's arm order. -/
def knownResponseMarkers : List Nat :=
  [RES_PONG, RES_OVERFLOW, RES_BADADDR, RES_INTERROR, RES_BADARGS, RES_OK,
   RES_UNKNOWN, RES_XFTIMEOUT, RES_XFEPE, RES_CHANGE_BAUD_FAIL, RES_CRCRX,
   RES_RRANGE, RES_XRRANGE, RES_GATTR, RES_CRCIF, RES_CRCXF, RES_INFO]

-- ===========================================================================
-- Encoder lemmas
-- ===========================================================================

lemma encodesTo_nil (e : CommandEncoder) (h : (cmdNext e).1 = none) :
    EncodesTo e [] := by
  intro fuel
  cases fuel with
  | zero => rfl
  | succ n =>
    simp only [cmdEncodeList]
    rcases hn : cmdNext e with ⟨o, e'⟩
    rw [hn] at h
    simp at h
    subst h
    simp

lemma encodesTo_cons (e : CommandEncoder) (b : Nat) (e' : CommandEncoder)
    (l : List Nat) (h : cmdNext e = (some b, e')) (h2 : EncodesTo e' l) :
    EncodesTo e (b :: l) := by
  intro fuel
  cases fuel with
  | zero => rfl
  | succ n =>
    simp only [cmdEncodeList, h, List.take_succ_cons]
    rw [h2 n]

lemma encodesTo_of_run (e : CommandEncoder) (n : Nat) (l : List Nat)
    (h : cmdEncodeList e n = l) (hlen : l.length < n) : EncodesTo e l := by
  induction n generalizing e l with
  | zero => omega
  | succ m ih =>
    rw [cmdEncodeList] at h
    rcases hn : cmdNext e with ⟨o, e'⟩
    rw [hn] at h
    cases o with
    | none =>
      simp at h
      subst h
      exact encodesTo_nil e (by rw [hn])
    | some b =>
      simp at h
      subst h
      refine encodesTo_cons e b e' _ (by rw [hn]) ?_
      refine ih e' _ rfl ?_
      simp at hlen
      omega

lemma rencodesTo_nil (e : ResponseEncoder) (h : (rspNext e).1 = none) :
    REncodesTo e [] := by
  intro fuel
  cases fuel with
  | zero => rfl
  | succ n =>
    simp only [rspEncodeList]
    rcases hn : rspNext e with ⟨o, e'⟩
    rw [hn] at h
    simp at h
    subst h
    simp

lemma rencodesTo_cons (e : ResponseEncoder) (b : Nat) (e' : ResponseEncoder)
    (l : List Nat) (h : rspNext e = (some b, e')) (h2 : REncodesTo e' l) :
    REncodesTo e (b :: l) := by
  intro fuel
  cases fuel with
  | zero => rfl
  | succ n =>
    simp only [rspEncodeList, h, List.take_succ_cons]
    rw [h2 n]

lemma rencodesTo_of_run (e : ResponseEncoder) (n : Nat) (l : List Nat)
    (h : rspEncodeList e n = l) (hlen : l.length < n) : REncodesTo e l := by
  induction n generalizing e l with
  | zero => omega
  | succ m ih =>
    rw [rspEncodeList] at h
    rcases hn : rspNext e with ⟨o, e'⟩
    rw [hn] at h
    cases o with
    | none =>
      simp at h
      subst h
      exact rencodesTo_nil e (by rw [hn])
    | some b =>
      simp at h
      subst h
      refine rencodesTo_cons e b e' _ (by rw [hn]) ?_
      refine ih e' _ rfl ?_
      simp at hlen
      omega

/-- Any command whose `cmdEmit` follows `planStep payload op` encodes, from a
fresh encoder, exactly the escaped payload followed by the trailer, and then
`None` forever. -/
lemma encodesTo_of_plan (cmd : Command) (payload : List Nat) (op : Nat)
    (hplan : ∀ c esc, cmdEmit cmd c esc = planStep payload op c esc) :
    EncodesTo ⟨cmd, 0, false⟩ (escapeList payload ++ [ESCAPE_CHAR, op]) := by
  suffices h : ∀ k c, c + k = payload.length →
      EncodesTo ⟨cmd, c, false⟩ (escapeList (payload.drop c) ++ [ESCAPE_CHAR, op]) by
    simpa using h payload.length 0 (by omega)
  intro k
  induction k with
  | zero =>
    intro c hc
    have hdrop : payload.drop c = [] := by
      apply List.drop_eq_nil_of_le
      omega
    rw [hdrop]
    have e1 : cmdEmit cmd c false = (1, some ESCAPE_CHAR, false) := by
      rw [hplan]
      unfold planStep
      rw [if_neg (by omega)]
      have hz : c - payload.length = 0 := by omega
      rw [hz]
      rfl
    have e2 : cmdEmit cmd (c + 1) false = (1, some op, false) := by
      rw [hplan]
      unfold planStep
      rw [if_neg (by omega)]
      have hz : c + 1 - payload.length = 1 := by omega
      rw [hz]
      rfl
    have e3 : cmdEmit cmd (c + 2) false = (0, none, false) := by
      rw [hplan]
      unfold planStep
      rw [if_neg (by omega)]
      have hz : c + 2 - payload.length = 2 := by omega
      rw [hz]
      rfl
    refine encodesTo_cons _ _ ⟨cmd, c + 1, false⟩ _ ?_ ?_
    · simp [cmdNext, e1]
    refine encodesTo_cons _ _ ⟨cmd, c + 2, false⟩ _ ?_ ?_
    · simp [cmdNext, e2]
    refine encodesTo_nil _ ?_
    simp [cmdNext, e3]
  | succ k ih =>
    intro c hc
    have hlt : c < payload.length := by omega
    have hdrop : payload.drop c = payload.getD c 0 :: payload.drop (c + 1) := by
      rw [List.getD_eq_getElem payload 0 hlt]
      exact List.drop_eq_getElem_cons hlt
    rw [hdrop]
    by_cases hb : payload.getD c 0 = ESCAPE_CHAR
    · rw [hb]
      have e1 : cmdEmit cmd c false = (0, some ESCAPE_CHAR, true) := by
        rw [hplan]
        unfold planStep
        rw [if_pos hlt, hb]
        rfl
      have e2 : cmdEmit cmd c true = (1, some ESCAPE_CHAR, false) := by
        rw [hplan]
        unfold planStep
        rw [if_pos hlt, hb]
        rfl
      have hgoal :
          escapeList (ESCAPE_CHAR :: payload.drop (c + 1)) ++ [ESCAPE_CHAR, op]
            = ESCAPE_CHAR :: ESCAPE_CHAR ::
                (escapeList (payload.drop (c + 1)) ++ [ESCAPE_CHAR, op]) := by
        simp [escapeList]
      rw [hgoal]
      refine encodesTo_cons _ _ ⟨cmd, c, true⟩ _ ?_ ?_
      · simp [cmdNext, e1]
      refine encodesTo_cons _ _ ⟨cmd, c + 1, false⟩ _ ?_ ?_
      · simp [cmdNext, e2]
      exact ih (c + 1) (by omega)
    · have e1 : cmdEmit cmd c false = (1, some (payload.getD c 0), false) := by
        rw [hplan]
        unfold planStep
        rw [if_pos hlt]
        unfold render_byte
        rw [if_neg hb]
      have hgoal :
          escapeList (payload.getD c 0 :: payload.drop (c + 1)) ++ [ESCAPE_CHAR, op]
            = payload.getD c 0 ::
                (escapeList (payload.drop (c + 1)) ++ [ESCAPE_CHAR, op]) := by
        simp only [escapeList]
        rw [if_neg hb]
        simp
      rw [hgoal]
      refine encodesTo_cons _ _ ⟨cmd, c + 1, false⟩ _ ?_ ?_
      · simp [cmdNext, e1]
      exact ih (c + 1) (by omega)

-- ===========================================================================
-- Decoder lemmas
-- ===========================================================================

lemma cmdRun_append (xs ys : List Nat) : ∀ d : CommandDecoder,
    cmdRun d (xs ++ ys)
      = ((cmdRun d xs).fst ++ (cmdRun (cmdRun d xs).snd ys).fst,
         (cmdRun (cmdRun d xs).snd ys).snd) := by
  induction xs with
  | nil => intro d; simp [cmdRun]
  | cons x rest ih =>
    intro d
    simp only [List.cons_append, cmdRun, List.append_eq]
    rw [ih]

/-- Feeding an escaped payload to a command decoder in the `Loading` framing
state buffers exactly the unescaped payload (while within the 520-byte
capacity) and reports "no command yet" on every byte. -/
lemma cmdRun_escapeList (p : List Nat) : ∀ buf : List Nat,
    buf.length + p.length ≤ 520 →
    cmdRun ⟨DecoderState.Loading, buf⟩ (escapeList p)
      = (List.replicate (escapeList p).length (.ok none),
         ⟨DecoderState.Loading, buf ++ p⟩) := by
  induction p with
  | nil => intro buf h; simp [escapeList, cmdRun]
  | cons b rest ih =>
    intro buf h
    simp only [List.length_cons] at h
    by_cases hb : b = ESCAPE_CHAR
    · subst hb
      have hesc : escapeList (ESCAPE_CHAR :: rest)
          = ESCAPE_CHAR :: ESCAPE_CHAR :: escapeList rest := by
        simp [escapeList]
      rw [hesc]
      have s1 : cmdReceive ⟨DecoderState.Loading, buf⟩ ESCAPE_CHAR
          = (.ok none, ⟨DecoderState.Escape, buf⟩) := by
        simp [cmdReceive]
      have s2 : cmdReceive ⟨DecoderState.Escape, buf⟩ ESCAPE_CHAR
          = (.ok none, ⟨DecoderState.Loading, buf ++ [ESCAPE_CHAR]⟩) := by
        simp only [cmdReceive, cmdHandleEscape, if_pos rfl]
        simp [cmdLoadChar]
        omega
      simp only [cmdRun, s1, s2]
      rw [ih (buf ++ [ESCAPE_CHAR]) (by simp; omega)]
      simp [List.replicate_succ]
    · have hesc : escapeList (b :: rest) = b :: escapeList rest := by
        simp only [escapeList]
        rw [if_neg hb]
        simp
      rw [hesc]
      have s1 : cmdReceive ⟨DecoderState.Loading, buf⟩ b
          = (.ok none, ⟨DecoderState.Loading, buf ++ [b]⟩) := by
        simp only [cmdReceive]
        rw [if_neg hb]
        simp [cmdLoadChar]
        omega
      simp only [cmdRun, s1]
      rw [ih (buf ++ [b]) (by simp; omega)]
      simp [List.replicate_succ]

/-- Reading back the four little-endian bytes of a `u32` below `2^32`
recovers the value. -/
lemma readU32_le32_append (a : Nat) (l : List Nat) (h : a < 4294967296) :
    readU32 (le32 a ++ l) 0 = a := by
  simp [readU32, le32]
  omega

/-- `render_writepage_cmd` follows the canonical plan: escaped address bytes,
then the escaped 512-byte page, then the sentinel+`CMD_WPAGE` trailer. -/
lemma writepage_plan (a : Nat) (data : List Nat) (hd : data.length = 512) :
    ∀ c esc, cmdEmit (.WritePage a data) c esc
      = planStep (le32 a ++ data) CMD_WPAGE c esc := by
  intro c esc
  have hlen : (le32 a ++ data).length = 516 := by simp [le32, hd]
  simp only [cmdEmit, render_writepage_cmd, planStep, hlen, INT_PAGE_SIZE]
  by_cases h0 : c ≤ 3
  · rw [if_pos h0, if_pos (by omega)]
    have hc : (le32 a ++ data).getD c 0 = (le32 a).getD c 0 := by
      apply List.getD_append
      simp [le32]
      omega
    rw [hc]
    interval_cases c <;> simp [render_u32, le32]
  · rw [if_neg h0]
    by_cases h1 : c ≤ 515
    · rw [if_pos h1, if_pos (by omega)]
      have hc : (le32 a ++ data).getD c 0 = data.getD (c - 4) 0 := by
        have h4 : (le32 a).length = 4 := by simp [le32]
        rw [List.getD_append_right _ _ _ _ (by omega : (le32 a).length ≤ c), h4]
      rw [hc]
      unfold render_buffer
      rw [if_pos (by omega)]
    · rw [if_neg h1, if_neg (by omega)]

/-- Dispatching `CMD_WPAGE` on the buffered address+page bytes recovers the
original `WritePage` command. -/
lemma cmdDispatch_wpage (a : Nat) (data : List Nat) (hd : data.length = 512)
    (ha : a < 4294967296) :
    cmdDispatch (le32 a ++ data) CMD_WPAGE = .ok (some (.WritePage a data)) := by
  have hlen : (le32 a ++ data).length = 516 := by simp [le32, hd]
  have hdrop : (le32 a ++ data).drop 4 = data := by simp [le32]
  unfold cmdDispatch
  norm_num [CMD_PING, CMD_INFO, CMD_ID, CMD_RESET, CMD_EPAGE, CMD_WPAGE,
    INT_PAGE_SIZE, hlen]
  rw [readU32_le32_append a data ha, hdrop, List.take_of_length_le (by omega)]
  exact ⟨rfl, rfl⟩

-- ===========================================================================
-- Claim C6
-- ===========================================================================

/-- C6: for any valid `WritePage` command (512-byte page, 32-bit address),
in particular any whose payload contains one or more `0xFC` bytes, the
encoder accepts the command and emits exactly the escape-doubled payload
(each literal `0xFC`, and no other byte, appears twice in a row, at its
original position) followed by the sentinel+`CMD_WPAGE` trailer, then `None`
forever; feeding that doubled stream byte-at-a-time to a fresh
`CommandDecoder` yields `Ok(None)` on every byte but the last and recovers
exactly the original command — one `0xFC` per occurrence at each original
payload position — on the final byte. -/
theorem claim_C6 (a : Nat) (data : List Nat) (ha : a < 4294967296)
    (hd : data.length = 512) (_hesc : ESCAPE_CHAR ∈ data) :
    cmdEncoderNew (.WritePage a data) = .ok ⟨.WritePage a data, 0, false⟩ ∧
    EncodesTo ⟨.WritePage a data, 0, false⟩
      (escapeList (le32 a ++ data) ++ [ESCAPE_CHAR, CMD_WPAGE]) ∧
    (cmdRun cmdDecoderNew
        (escapeList (le32 a ++ data) ++ [ESCAPE_CHAR, CMD_WPAGE])).fst
      = List.replicate ((escapeList (le32 a ++ data)).length + 1)
          (.ok none)
          ++ [.ok (some (.WritePage a data))] := by
  refine ⟨?_, ?_, ?_⟩
  · simp [cmdEncoderNew, hd, INT_PAGE_SIZE]
  · exact encodesTo_of_plan _ _ _ (writepage_plan a data hd)
  · rw [cmdRun_append]
    have hnew : cmdDecoderNew = ⟨DecoderState.Loading, []⟩ := rfl
    have habs := cmdRun_escapeList (le32 a ++ data) []
      (by simp [le32, hd])
    rw [hnew, habs]
    have s1 : cmdReceive ⟨DecoderState.Loading, [] ++ (le32 a ++ data)⟩ ESCAPE_CHAR
        = (.ok none, ⟨DecoderState.Escape, le32 a ++ data⟩) := by
      simp [cmdReceive]
    have s2 : cmdReceive ⟨DecoderState.Escape, le32 a ++ data⟩ CMD_WPAGE
        = (.ok (some (.WritePage a data)), ⟨DecoderState.Loading, []⟩) := by
      simp only [cmdReceive, cmdHandleEscape]
      rw [if_neg (by norm_num [CMD_WPAGE, ESCAPE_CHAR])]
      rw [cmdDispatch_wpage a data hd ha]
      simp [resultClears]
    simp only [cmdRun, s1, s2]
    simp [List.replicate_succ']

/-- Witness for C6 at address 0 and a 512-byte page consisting entirely of
sentinel bytes. -/
theorem claim_C6_witness :
    (0 : Nat) < 4294967296 ∧
    (List.replicate 512 ESCAPE_CHAR).length = 512 ∧
    ESCAPE_CHAR ∈ List.replicate 512 ESCAPE_CHAR ∧
    (cmdEncoderNew (.WritePage 0 (List.replicate 512 ESCAPE_CHAR))
        = .ok ⟨.WritePage 0 (List.replicate 512 ESCAPE_CHAR), 0, false⟩ ∧
     EncodesTo ⟨.WritePage 0 (List.replicate 512 ESCAPE_CHAR), 0, false⟩
       (escapeList (le32 0 ++ List.replicate 512 ESCAPE_CHAR)
          ++ [ESCAPE_CHAR, CMD_WPAGE]) ∧
     (cmdRun cmdDecoderNew
         (escapeList (le32 0 ++ List.replicate 512 ESCAPE_CHAR)
            ++ [ESCAPE_CHAR, CMD_WPAGE])).fst
       = List.replicate
           ((escapeList (le32 0 ++ List.replicate 512 ESCAPE_CHAR)).length + 1)
           (.ok none)
           ++ [.ok (some (.WritePage 0 (List.replicate 512 ESCAPE_CHAR)))]) :=
  ⟨by norm_num, by simp, by simp,
   claim_C6 0 (List.replicate 512 ESCAPE_CHAR) (by norm_num) (by simp) (by simp)⟩

-- ===========================================================================
-- Claim C9
-- ===========================================================================

/-- C9: `Command::ErasePage{address: 0xDEADBEEF}` is accepted by the encoder
and yields exactly the bytes `[0xEF, 0xBE, 0xAD, 0xDE, 0xFC, 0x06]`
(little-endian address, then sentinel and opcode trailer) and `None` on every
subsequent pull (`EncodesTo` states that every pull budget returns exactly
the corresponding prefix of this six-byte sequence). -/
theorem claim_C9 :
    cmdEncoderNew (.ErasePage 0xDEADBEEF)
      = .ok ⟨.ErasePage 0xDEADBEEF, 0, false⟩ ∧
    EncodesTo ⟨.ErasePage 0xDEADBEEF, 0, false⟩
      [0xEF, 0xBE, 0xAD, 0xDE, 0xFC, 0x06] :=
  ⟨by decide, encodesTo_of_run _ 10 _ (by decide) (by decide)⟩

-- ===========================================================================
-- Claim C5
-- ===========================================================================

/-- C5: `Response::CrcRxBuffer{length: 0x1234, crc: 0xDEADBEEF}` is accepted
by the response encoder and yields exactly
`[0xFC, 0x19, 0x34, 0x12, 0xEF, 0xBE, 0xAD, 0xDE]` and then `None` forever;
feeding those eight bytes to a freshly constructed `ResponseDecoder` (no
`set_payload_len` call — the `CrcRxBuffer` marker auto-arms) returns
`Ok(None)` on the first seven bytes and the original response on the final
byte. -/
theorem claim_C5 :
    rspEncoderNew (.CrcRxBuffer 0x1234 0xDEADBEEF)
      = .ok ⟨.CrcRxBuffer 0x1234 0xDEADBEEF, 0, false⟩ ∧
    REncodesTo ⟨.CrcRxBuffer 0x1234 0xDEADBEEF, 0, false⟩
      [0xFC, 0x19, 0x34, 0x12, 0xEF, 0xBE, 0xAD, 0xDE] ∧
    (rspRun rspDecoderNew [0xFC, 0x19, 0x34, 0x12, 0xEF, 0xBE, 0xAD, 0xDE]).fst
      = List.replicate 7 (.ok none)
          ++ [.ok (some (.CrcRxBuffer 0x1234 0xDEADBEEF))] :=
  ⟨by decide, rencodesTo_of_run _ 12 _ (by decide) (by decide), by decide⟩

-- ===========================================================================
-- Claim C4
-- ===========================================================================

/-- C4: a fresh `ResponseDecoder` fed `[0xFC, 0x20, 0x00, 0x11, 0x22, 0x33]`
with no prior `set_payload_len` call returns `Err(UnsetLength)` on the `0x20`
byte (and `Ok(None)` on the remaining bytes, which are simply buffered); if
`set_payload_len(4)` is called first, the same six bytes produce `Ok(None)`
on each of the first five bytes and
`Ok(Some(Response::ReadRange{data: [0x00, 0x11, 0x22, 0x33]}))` on the last
byte. -/
theorem claim_C4 :
    (rspRun rspDecoderNew [0xFC, 0x20, 0x00, 0x11, 0x22, 0x33]).fst
      = [.ok none, .error .UnsetLength, .ok none, .ok none, .ok none, .ok none] ∧
    (rspSetPayloadLen rspDecoderNew 4).fst = .ok () ∧
    (rspRun (rspSetPayloadLen rspDecoderNew 4).snd
        [0xFC, 0x20, 0x00, 0x11, 0x22, 0x33]).fst
      = List.replicate 5 (.ok none)
          ++ [.ok (some (.ReadRange [0x00, 0x11, 0x22, 0x33]))] :=
  ⟨by decide, by decide, by decide⟩

-- ===========================================================================
-- Claim C1
-- ===========================================================================

/-- C1 (code bug witness): the valid command
`SetAttr{index: 1, key: [0; 8], value: [0xAA]}` passes encoder construction,
but the encoder emits only the nine bytes `[1, 0, 0, 0, 0, 0, 0, 0, 0]`
(index plus eight key bytes) and then `None` forever: at count 9 the
`1...9` arm of `render_setattr` calls `render_buffer(8, KEY_LEN, key)`,
which yields `(0, None)`, so the length byte, the value, and the
sentinel+`CMD_SATTR` trailer are never emitted.  Feeding the emitted bytes
to a fresh `CommandDecoder` therefore never produces any command: the
encode-then-decode round trip claimed for every valid `Command` fails on
`SetAttr` (and similarly on `ChangeBaud`, whose renderer emits only three of
the four baud bytes and a `CMD_WUSER` trailer opcode). -/
theorem claim_C1 :
    cmdEncoderNew (.SetAttr 1 (List.replicate 8 0) [0xAA])
      = .ok ⟨.SetAttr 1 (List.replicate 8 0) [0xAA], 0, false⟩ ∧
    EncodesTo ⟨.SetAttr 1 (List.replicate 8 0) [0xAA], 0, false⟩
      [1, 0, 0, 0, 0, 0, 0, 0, 0] ∧
    (cmdRun cmdDecoderNew [1, 0, 0, 0, 0, 0, 0, 0, 0]).fst
      = List.replicate 9 (.ok none) :=
  ⟨by decide, encodesTo_of_run _ 30 _ (by decide) (by decide), by decide⟩

-- ===========================================================================
-- Claim C2
-- ===========================================================================

/-- C2 (counterexample): a fresh `ResponseDecoder` fed the sentinel `0xFC`
and then `0x00` — a byte that is neither the sentinel nor a known response
opcode — returns `Ok(None)` on the second byte, not `Err(UnknownCommand)` as
the claim states: the response decoder's `handle_escape` falls through to
`Ok(None)` on unknown markers. -/
theorem claim_C2_counterexample :
    (rspRun rspDecoderNew [0xFC, 0x00]).fst = [.ok none, .ok none] ∧
    (rspRun rspDecoderNew [0xFC, 0x00]).fst
      ≠ [.ok none, .error .UnknownCommand] :=
  ⟨by decide, by decide⟩

/-- C2 (amended): for every response decoder whose framing state is
`Loading` (in particular any fresh decoder), feeding the sentinel `0xFC`
followed by a byte that is neither `0xFC` nor one of the known response
opcodes makes `receive` return `Ok(None)` on both bytes: the unknown marker
is silently ignored.  (`Err(UnknownCommand)` is raised only at reassembly,
when an armed byte count completes with an unrecognised opcode in buffer
slot 0.) -/
theorem claim_C2 (d : ResponseDecoder) (b : Nat)
    (hstate : d.state = DecoderState.Loading) (hne : b ≠ ESCAPE_CHAR)
    (hunk : b ∉ knownResponseMarkers) :
    (rspReceive d ESCAPE_CHAR).fst = .ok none ∧
    (rspReceive (rspReceive d ESCAPE_CHAR).snd b).fst = .ok none := by
  obtain ⟨st, buf, needed⟩ := d
  simp only at hstate
  subst hstate
  have s1 : rspReceive ⟨DecoderState.Loading, buf, needed⟩ ESCAPE_CHAR
      = (.ok none, ⟨DecoderState.Escape, buf, needed⟩) := by
    simp [rspReceive]
  rw [s1]
  refine ⟨rfl, ?_⟩
  simp only [knownResponseMarkers, List.mem_cons, List.not_mem_nil, or_false] at hunk
  push_neg at hunk
  obtain ⟨h1, h2, h3, h4, h5, h6, h7, h8, h9, h10, h11, h12, h13, h14, h15,
    h16, h17⟩ := hunk
  simp only [rspReceive, rspHandleEscape]
  rw [if_neg hne, if_neg h1, if_neg h2, if_neg h3, if_neg h4, if_neg h5,
    if_neg h6, if_neg h7, if_neg h8, if_neg h9, if_neg h10, if_neg h11,
    if_neg h12, if_neg h13, if_neg h14, if_neg h15, if_neg h16, if_neg h17]

/-- Witness for the amended C2 at a fresh decoder and the unknown byte 0. -/
theorem claim_C2_witness :
    rspDecoderNew.state = DecoderState.Loading ∧
    (0 : Nat) ≠ ESCAPE_CHAR ∧
    (0 : Nat) ∉ knownResponseMarkers ∧
    ((rspReceive rspDecoderNew ESCAPE_CHAR).fst = .ok none ∧
     (rspReceive (rspReceive rspDecoderNew ESCAPE_CHAR).snd 0).fst = .ok none) :=
  ⟨rfl, by decide, by decide,
   claim_C2 rspDecoderNew 0 rfl (by decide) (by decide)⟩

-- ===========================================================================
-- Claim C3
-- ===========================================================================

set_option maxHeartbeats 4000000 in
/-- C3 (counterexample): a fresh `CommandDecoder` fed a `SetAttr` frame with
index byte 17 and declared value length 56 — both outside the claimed
structural bounds `index <= 16` and `value.len() <= 55` — decodes
successfully instead of failing: the decoder's `CMD_SATTR` arm checks only
the buffered count against the declared length, never the index or the value
bound.  The payload is index 17, eight zero key bytes, length byte 56,
56 value bytes `0xAA` and one extra byte `0xBB` (so that the buffered count
67 strictly exceeds `10 + 56`), followed by the sentinel+`CMD_SATTR` marker. -/
theorem claim_C3_counterexample :
    (cmdRun cmdDecoderNew
        ((17 :: (List.replicate 8 0 ++ 56 :: (List.replicate 56 0xAA ++ [0xBB])))
          ++ [0xFC, 0x13])).fst
      = List.replicate 68 (.ok none)
          ++ [.ok (some (.SetAttr 17 (List.replicate 8 0)
                (List.replicate 56 0xAA)))] := by
  decide

set_option maxHeartbeats 1600000 in
/-- C3 (amended): whenever `CommandDecoder::receive` returns
`Ok(Some(SetAttr{index, key, value}))`, the decoded value satisfies
`key.len() == 8`, `value.len()` equals the declared length in buffer byte 9,
and the buffered count strictly exceeds `10 + value.len()`, with `index`
taken verbatim from buffer byte 0; the bounds `index <= 16` and
`value.len() <= 55` are *not* checked by the decoder (they are enforced only
at encoder construction), so inputs violating only those bounds decode
successfully rather than failing. -/
theorem claim_C3 (d : CommandDecoder) (ch i : Nat) (k v : List Nat)
    (h : (cmdReceive d ch).fst = .ok (some (.SetAttr i k v))) :
    k.length = 8 ∧ v.length = d.buffer.getD 9 0 ∧
    10 + v.length < d.buffer.length ∧ i = d.buffer.getD 0 0 := by
  obtain ⟨st, buf⟩ := d
  dsimp only
  cases st
  case Loading =>
    simp only [cmdReceive] at h
    by_cases hc : ch = ESCAPE_CHAR
    · rw [if_pos hc] at h
      simp at h
    · rw [if_neg hc] at h
      simp at h
  case Escape =>
    simp only [cmdReceive, cmdHandleEscape] at h
    by_cases hc : ch = ESCAPE_CHAR
    · rw [if_pos hc] at h
      simp at h
    · rw [if_neg hc] at h
      simp only [] at h
      unfold cmdDispatch at h
      simp only [] at h
      by_cases e1 : ch = CMD_PING
      · rw [if_pos e1] at h
        simp at h
      rw [if_neg e1] at h
      by_cases e2 : ch = CMD_INFO
      · rw [if_pos e2] at h
        simp at h
      rw [if_neg e2] at h
      by_cases e3 : ch = CMD_ID
      · rw [if_pos e3] at h
        simp at h
      rw [if_neg e3] at h
      by_cases e4 : ch = CMD_RESET
      · rw [if_pos e4] at h
        simp at h
      rw [if_neg e4] at h
      by_cases e5 : ch = CMD_EPAGE
      · rw [if_pos e5] at h
        split_ifs at h
        all_goals try simp at h
      rw [if_neg e5] at h
      by_cases e6 : ch = CMD_WPAGE
      · rw [if_pos e6] at h
        split_ifs at h
        all_goals try simp at h
      rw [if_neg e6] at h
      by_cases e7 : ch = CMD_XEBLOCK
      · rw [if_pos e7] at h
        split_ifs at h
        all_goals try simp at h
      rw [if_neg e7] at h
      by_cases e8 : ch = CMD_XWPAGE
      · rw [if_pos e8] at h
        split_ifs at h
        all_goals try simp at h
      rw [if_neg e8] at h
      by_cases e9 : ch = CMD_CRCRX
      · rw [if_pos e9] at h
        simp at h
      rw [if_neg e9] at h
      by_cases e10 : ch = CMD_RRANGE
      · rw [if_pos e10] at h
        split_ifs at h
        all_goals try simp at h
      rw [if_neg e10] at h
      by_cases e11 : ch = CMD_XRRANGE
      · rw [if_pos e11] at h
        split_ifs at h
        all_goals try simp at h
      rw [if_neg e11] at h
      by_cases e12 : ch = CMD_SATTR
      · rw [if_pos e12] at h
        try simp only [] at h
        split_ifs at h with hge hgt
        · simp only [Except.ok.injEq, Option.some.injEq,
            Command.SetAttr.injEq] at h
          obtain ⟨hi, hk, hv⟩ := h
          subst hi
          subst hk
          subst hv
          refine ⟨?_, ?_, ?_, ?_⟩
          all_goals simp only [List.length_take, List.length_drop]
          all_goals omega
      rw [if_neg e12] at h
      by_cases e13 : ch = CMD_GATTR
      · rw [if_pos e13] at h
        split_ifs at h
        all_goals try simp at h
      rw [if_neg e13] at h
      by_cases e14 : ch = CMD_CRCIF
      · rw [if_pos e14] at h
        split_ifs at h
        all_goals try simp at h
      rw [if_neg e14] at h
      by_cases e15 : ch = CMD_CRCEF
      · rw [if_pos e15] at h
        split_ifs at h
        all_goals try simp at h
      rw [if_neg e15] at h
      by_cases e16 : ch = CMD_XEPAGE
      · rw [if_pos e16] at h
        split_ifs at h
        all_goals try simp at h
      rw [if_neg e16] at h
      by_cases e17 : ch = CMD_XFINIT
      · rw [if_pos e17] at h
        simp at h
      rw [if_neg e17] at h
      by_cases e18 : ch = CMD_CLKOUT
      · rw [if_pos e18] at h
        simp at h
      rw [if_neg e18] at h
      by_cases e19 : ch = CMD_WUSER
      · rw [if_pos e19] at h
        split_ifs at h
        all_goals try simp at h
      rw [if_neg e19] at h
      by_cases e20 : ch = CMD_CHANGE_BAUD
      · rw [if_pos e20] at h
        split_ifs at h
        all_goals try simp at h
      rw [if_neg e20] at h
      simp at h

/-- Witness for the amended C3: the decoder in the `Escape` framing state
holding the 67-byte SetAttr payload (index 17, zero key, declared length 56)
decodes to a `SetAttr` whose fields satisfy exactly the amended
characterisation. -/
theorem claim_C3_witness :
    (cmdReceive
        ⟨DecoderState.Escape,
         17 :: (List.replicate 8 0 ++ 56 :: (List.replicate 56 0xAA ++ [0xBB]))⟩
        0x13).fst
      = .ok (some (.SetAttr 17 (List.replicate 8 0) (List.replicate 56 0xAA))) ∧
    ((List.replicate 8 (0 : Nat)).length = 8 ∧
     (List.replicate 56 (0xAA : Nat)).length
       = (17 :: (List.replicate 8 0
           ++ 56 :: (List.replicate 56 0xAA ++ [0xBB]))).getD 9 0 ∧
     10 + (List.replicate 56 (0xAA : Nat)).length
       < (17 :: (List.replicate 8 0
           ++ 56 :: (List.replicate 56 0xAA ++ [0xBB]))).length ∧
     (17 : Nat) = (17 :: (List.replicate 8 0
           ++ 56 :: (List.replicate 56 0xAA ++ [0xBB]))).getD 0 0) :=
  ⟨by decide,
   claim_C3
     ⟨DecoderState.Escape,
      17 :: (List.replicate 8 0 ++ 56 :: (List.replicate 56 0xAA ++ [0xBB]))⟩
     0x13 17 (List.replicate 8 0) (List.replicate 56 0xAA) (by decide)⟩

-- ===========================================================================
-- Claim C7
-- ===========================================================================

/-- C7: `CommandEncoder::new` on a `SetAttr` with `index == 17`, or with
`key.len() != 8`, or with `value.len() == 56`, returns `Err(BadArguments)`
(so no byte is ever produced); and for every decoder buffer whose length does
not strictly exceed `10 + buffer[9]` (the declared value length), receiving
the `CMD_SATTR` opcode marker returns `Err(BadArguments)`. -/
theorem claim_C7 (i : Nat) (k v : List Nat) (buf : List Nat) :
    ((i = 17 ∨ k.length ≠ 8 ∨ v.length = 56) →
      cmdEncoderNew (.SetAttr i k v) = .error .BadArguments) ∧
    (buf.length ≤ 10 + buf.getD 9 0 →
      (cmdReceive ⟨DecoderState.Escape, buf⟩ CMD_SATTR).fst
        = .error .BadArguments) := by
  constructor
  · rintro (h | h | h)
    · subst h
      simp [cmdEncoderNew, MAX_INDEX]
    · simp only [cmdEncoderNew, MAX_INDEX, KEY_LEN, MAX_ATTR_LEN]
      split_ifs <;> simp_all
    · simp only [cmdEncoderNew, MAX_INDEX, KEY_LEN, MAX_ATTR_LEN]
      split_ifs <;> simp_all
  · intro h
    have hdis : cmdDispatch buf CMD_SATTR = .error .BadArguments := by
      unfold cmdDispatch
      norm_num [CMD_PING, CMD_INFO, CMD_ID, CMD_RESET, CMD_EPAGE, CMD_WPAGE,
        CMD_XEBLOCK, CMD_XWPAGE, CMD_CRCRX, CMD_RRANGE, CMD_XRRANGE, CMD_SATTR]
      simp only [List.getD_eq_getElem?_getD] at h
      intro h1 h2
      omega
    simp only [cmdReceive, cmdHandleEscape]
    rw [if_neg (by norm_num [CMD_SATTR, ESCAPE_CHAR])]
    simp [hdis]

/-- Witness for C7: encoder rejection at index 17, and decoder rejection on
an empty buffer (length 0, which does not exceed `10 + 0`). -/
theorem claim_C7_witness :
    ((17 : Nat) = 17 ∨ (List.replicate 8 (0 : Nat)).length ≠ 8 ∨
      ([0xAA] : List Nat).length = 56) ∧
    cmdEncoderNew (.SetAttr 17 (List.replicate 8 0) [0xAA])
      = .error .BadArguments ∧
    ([] : List Nat).length ≤ 10 + ([] : List Nat).getD 9 0 ∧
    (cmdReceive ⟨DecoderState.Escape, []⟩ CMD_SATTR).fst
      = .error .BadArguments :=
  ⟨Or.inl rfl,
   (claim_C7 17 (List.replicate 8 0) [0xAA] []).1 (Or.inl rfl),
   by decide,
   (claim_C7 17 (List.replicate 8 0) [0xAA] []).2 (by decide)⟩

-- ===========================================================================
-- Claim C8
-- ===========================================================================

lemma rspDispatch_not_setLength (buf : List Nat) :
    rspDispatch buf ≠ .error .SetLength := by
  unfold rspDispatch
  split_ifs <;> try simp
  all_goals split_ifs <;> simp

/-- `load_char` either completes (clearing the armed length, never with a
`SetLength` error) or buffers the byte and returns `Ok(None)` leaving the
armed length untouched. -/
lemma rspLoadChar_cases (d : ResponseDecoder) (ch : Nat) :
    ((rspLoadChar d ch).snd.needed = none ∧
     (rspLoadChar d ch).fst ≠ .error .SetLength) ∨
    ((rspLoadChar d ch).fst = .ok none ∧
     (rspLoadChar d ch).snd.needed = d.needed) := by
  unfold rspLoadChar
  simp only
  split_ifs with h1 h2 h3
  all_goals first
    | exact Or.inl ⟨rfl, rspDispatch_not_setLength _⟩
    | exact Or.inr ⟨rfl, rfl⟩

lemma rspLoadSwallow_spec (d : ResponseDecoder) (ch : Nat) :
    (∀ x, (rspLoadSwallow d ch).fst ≠ .ok (some x)) ∧
    (rspLoadSwallow d ch).fst ≠ .error .SetLength ∧
    ((rspLoadSwallow d ch).fst ≠ .ok none →
      (rspLoadSwallow d ch).snd.needed = none) := by
  have hc := rspLoadChar_cases d ch
  unfold rspLoadSwallow
  rcases hl : rspLoadChar d ch with ⟨r, d2⟩
  rw [hl] at hc
  simp only at hc
  cases r with
  | error e =>
    simp only
    rcases hc with ⟨h1, h2⟩ | ⟨h1, _⟩
    · exact ⟨fun x => by simp, h2, fun _ => h1⟩
    · exact absurd h1 (by simp)
  | ok x =>
    simp only
    exact ⟨fun x => by simp, by simp, fun hne => absurd rfl hne⟩

lemma rspArmAndLoad_spec (d : ResponseDecoder) (n ch : Nat) :
    (((∃ x, (rspArmAndLoad d n ch).fst = .ok (some x)) ∨
      (rspArmAndLoad d n ch).fst = .error .BadArguments ∨
      (rspArmAndLoad d n ch).fst = .error .UnknownCommand) →
        (rspArmAndLoad d n ch).snd.needed = none) ∧
    ((rspArmAndLoad d n ch).fst = .error .SetLength →
        (rspArmAndLoad d n ch).snd.needed = d.needed) := by
  unfold rspArmAndLoad rspSetPayloadLen
  rcases hn : d.needed with _ | m
  · simp only
    have hs := rspLoadSwallow_spec ⟨d.state, d.buffer, some (n + 1)⟩ ch
    constructor
    · rintro (⟨x, hx⟩ | hx | hx)
      · exact absurd hx (hs.1 x)
      · exact hs.2.2 (by rw [hx]; simp)
      · exact hs.2.2 (by rw [hx]; simp)
    · intro hx
      exact absurd hx hs.2.1
  · simp only
    constructor
    · rintro (⟨x, hx⟩ | hx | hx) <;> simp_all
    · intro _
      trivial

lemma rspLoadChar_spec (d : ResponseDecoder) (ch : Nat) :
    (((∃ x, (rspLoadChar d ch).fst = .ok (some x)) ∨
      (rspLoadChar d ch).fst = .error .BadArguments ∨
      (rspLoadChar d ch).fst = .error .UnknownCommand) →
        (rspLoadChar d ch).snd.needed = none) ∧
    ((rspLoadChar d ch).fst = .error .SetLength →
        (rspLoadChar d ch).snd.needed = d.needed) := by
  rcases rspLoadChar_cases d ch with ⟨h1, h2⟩ | ⟨h1, h2⟩
  · exact ⟨fun _ => h1, fun hx => absurd hx h2⟩
  · constructor
    · rintro (⟨x, hx⟩ | hx | hx) <;> rw [h1] at hx <;> simp at hx
    · intro _
      exact h2

lemma rspLoadSwallow_spec2 (d : ResponseDecoder) (ch : Nat) :
    (((∃ x, (rspLoadSwallow d ch).fst = .ok (some x)) ∨
      (rspLoadSwallow d ch).fst = .error .BadArguments ∨
      (rspLoadSwallow d ch).fst = .error .UnknownCommand) →
        (rspLoadSwallow d ch).snd.needed = none) ∧
    ((rspLoadSwallow d ch).fst = .error .SetLength →
        (rspLoadSwallow d ch).snd.needed = d.needed) := by
  have hs := rspLoadSwallow_spec d ch
  constructor
  · rintro (⟨x, hx⟩ | hx | hx)
    · exact absurd hx (hs.1 x)
    · exact hs.2.2 (by rw [hx]; simp)
    · exact hs.2.2 (by rw [hx]; simp)
  · intro hx
    exact absurd hx hs.2.1

/-- After any `receive` outcome that completes a response or raises a
reassembly error (`BadArguments`/`UnknownCommand`), the armed length is
cleared; a `SetLength` error from `receive` leaves the armed length exactly
as it was. -/
lemma rspReceive_spec (d : ResponseDecoder) (ch : Nat) :
    (((∃ x, (rspReceive d ch).fst = .ok (some x)) ∨
      (rspReceive d ch).fst = .error .BadArguments ∨
      (rspReceive d ch).fst = .error .UnknownCommand) →
        (rspReceive d ch).snd.needed = none) ∧
    ((rspReceive d ch).fst = .error .SetLength →
        (rspReceive d ch).snd.needed = d.needed) := by
  obtain ⟨st, buf, needed⟩ := d
  cases st
  case Loading =>
    simp only [rspReceive]
    by_cases hc : ch = ESCAPE_CHAR
    · rw [if_pos hc]
      constructor
      · rintro (⟨x, hx⟩ | hx | hx) <;> simp at hx
      · intro hx
        simp at hx
    · rw [if_neg hc]
      exact rspLoadChar_spec ⟨DecoderState.Loading, buf, needed⟩ ch
  case Escape =>
    simp only [rspReceive, rspHandleEscape]
    by_cases hc : ch = ESCAPE_CHAR
    · rw [if_pos hc]
      exact rspLoadChar_spec ⟨DecoderState.Loading, buf, needed⟩ ch
    · rw [if_neg hc]
      by_cases e1 : ch = RES_PONG
      · rw [if_pos e1]
        exact ⟨fun _ => rfl, fun hx => by simp at hx⟩
      rw [if_neg e1]
      by_cases e2 : ch = RES_OVERFLOW
      · rw [if_pos e2]
        exact ⟨fun _ => rfl, fun hx => by simp at hx⟩
      rw [if_neg e2]
      by_cases e3 : ch = RES_BADADDR
      · rw [if_pos e3]
        exact ⟨fun _ => rfl, fun hx => by simp at hx⟩
      rw [if_neg e3]
      by_cases e4 : ch = RES_INTERROR
      · rw [if_pos e4]
        exact ⟨fun _ => rfl, fun hx => by simp at hx⟩
      rw [if_neg e4]
      by_cases e5 : ch = RES_BADARGS
      · rw [if_pos e5]
        exact ⟨fun _ => rfl, fun hx => by simp at hx⟩
      rw [if_neg e5]
      by_cases e6 : ch = RES_OK
      · rw [if_pos e6]
        exact ⟨fun _ => rfl, fun hx => by simp at hx⟩
      rw [if_neg e6]
      by_cases e7 : ch = RES_UNKNOWN
      · rw [if_pos e7]
        exact ⟨fun _ => rfl, fun hx => by simp at hx⟩
      rw [if_neg e7]
      by_cases e8 : ch = RES_XFTIMEOUT
      · rw [if_pos e8]
        exact ⟨fun _ => rfl, fun hx => by simp at hx⟩
      rw [if_neg e8]
      by_cases e9 : ch = RES_XFEPE
      · rw [if_pos e9]
        exact ⟨fun _ => rfl, fun hx => by simp at hx⟩
      rw [if_neg e9]
      by_cases e10 : ch = RES_CHANGE_BAUD_FAIL
      · rw [if_pos e10]
        exact ⟨fun _ => rfl, fun hx => by simp at hx⟩
      rw [if_neg e10]
      by_cases e11 : ch = RES_CRCRX
      · rw [if_pos e11]
        exact rspArmAndLoad_spec ⟨DecoderState.Loading, buf, needed⟩ _ ch
      rw [if_neg e11]
      by_cases e12 : ch = RES_RRANGE
      · rw [if_pos e12]
        by_cases hno : needed = none
        · rw [if_pos hno]
          constructor
          · rintro (⟨x, hx⟩ | hx | hx) <;> simp at hx
          · intro hx
            simp at hx
        · rw [if_neg hno]
          exact rspLoadSwallow_spec2 ⟨DecoderState.Loading, buf, needed⟩ ch
      rw [if_neg e12]
      by_cases e13 : ch = RES_XRRANGE
      · rw [if_pos e13]
        by_cases hno : needed = none
        · rw [if_pos hno]
          constructor
          · rintro (⟨x, hx⟩ | hx | hx) <;> simp at hx
          · intro hx
            simp at hx
        · rw [if_neg hno]
          exact rspLoadSwallow_spec2 ⟨DecoderState.Loading, buf, needed⟩ ch
      rw [if_neg e13]
      by_cases e14 : ch = RES_GATTR
      · rw [if_pos e14]
        exact rspArmAndLoad_spec ⟨DecoderState.Loading, buf, needed⟩ _ ch
      rw [if_neg e14]
      by_cases e15 : ch = RES_CRCIF
      · rw [if_pos e15]
        exact rspArmAndLoad_spec ⟨DecoderState.Loading, buf, needed⟩ _ ch
      rw [if_neg e15]
      by_cases e16 : ch = RES_CRCXF
      · rw [if_pos e16]
        exact rspArmAndLoad_spec ⟨DecoderState.Loading, buf, needed⟩ _ ch
      rw [if_neg e16]
      by_cases e17 : ch = RES_INFO
      · rw [if_pos e17]
        exact rspArmAndLoad_spec ⟨DecoderState.Loading, buf, needed⟩ _ ch
      rw [if_neg e17]
      constructor
      · rintro (⟨x, hx⟩ | hx | hx) <;> simp at hx
      · intro hx
        simp at hx

/-- C8 (counterexample): arm a fresh decoder with `set_payload_len(4)`, then
feed the marker `[0xFC, 0x19]` (`CrcRxBuffer`).  `receive` fails with
`Err(SetLength)` — a decode error — yet the armed length is *not* cleared:
the next `set_payload_len` call still fails with `Err(SetLength)`, refuting
the claim that after any decode error arming is cleared so that the next
`set_payload_len` succeeds. -/
theorem claim_C8_counterexample :
    (rspSetPayloadLen rspDecoderNew 4).fst = .ok () ∧
    (rspReceive (rspSetPayloadLen rspDecoderNew 4).snd 0xFC).fst = .ok none ∧
    (rspReceive
        (rspReceive (rspSetPayloadLen rspDecoderNew 4).snd 0xFC).snd
        0x19).fst
      = .error .SetLength ∧
    (rspSetPayloadLen
        (rspReceive
            (rspReceive (rspSetPayloadLen rspDecoderNew 4).snd 0xFC).snd
            0x19).snd
        4).fst
      = .error .SetLength :=
  ⟨by decide, by decide, by decide, by decide⟩

/-- C8 (amended): while a length is armed, `set_payload_len` fails with
`Err(SetLength)` and leaves the decoder unchanged.  Arming is cleared by
every successful decode and by the reassembly errors
`BadArguments`/`UnknownCommand`, so the next `set_payload_len` succeeds
after those; but the `SetLength` error that `receive` itself raises (an
auto-arming marker arriving while armed) leaves the armed length exactly as
it was, so `set_payload_len` still fails afterwards. -/
theorem claim_C8 (d : ResponseDecoder) (n l ch : Nat) :
    (d.needed = some n → rspSetPayloadLen d l = (.error .SetLength, d)) ∧
    (((∃ x, (rspReceive d ch).fst = .ok (some x)) ∨
      (rspReceive d ch).fst = .error .BadArguments ∨
      (rspReceive d ch).fst = .error .UnknownCommand) →
        (rspReceive d ch).snd.needed = none) ∧
    ((rspReceive d ch).fst = .error .SetLength →
        (rspReceive d ch).snd.needed = d.needed) := by
  refine ⟨?_, (rspReceive_spec d ch).1, (rspReceive_spec d ch).2⟩
  intro h
  unfold rspSetPayloadLen
  rw [h]

/-- Witness for the amended C8 at an armed fresh decoder and the `Pong`
marker (a successful decode, which clears the arming). -/
theorem claim_C8_witness :
    (⟨DecoderState.Escape, [], some 5⟩ : ResponseDecoder).needed = some 5 ∧
    rspSetPayloadLen (⟨DecoderState.Escape, [], some 5⟩ : ResponseDecoder) 4
      = (.error .SetLength, ⟨DecoderState.Escape, [], some 5⟩) ∧
    ((∃ x, (rspReceive (⟨DecoderState.Escape, [], some 5⟩ : ResponseDecoder)
        RES_PONG).fst = .ok (some x)) ∧
     (rspReceive (⟨DecoderState.Escape, [], some 5⟩ : ResponseDecoder)
        RES_PONG).snd.needed = none) :=
  ⟨rfl,
   (claim_C8 ⟨DecoderState.Escape, [], some 5⟩ 5 4 RES_PONG).1 rfl,
   ⟨⟨Response.Pong, by decide⟩,
    (claim_C8 ⟨DecoderState.Escape, [], some 5⟩ 5 4 RES_PONG).2.1
      (Or.inl ⟨Response.Pong, by decide⟩)⟩⟩

-- ===========================================================================
-- Claim C10
-- ===========================================================================

/-- C10: `ResponseDecoder::reset` clears the buffered byte count but not an
outstanding armed length: for every decoder with a length armed, after
`reset()` the armed length is still outstanding (`needed` unchanged), a
subsequent `set_payload_len` fails with `Err(SetLength)` leaving the decoder
unchanged, and a subsequent `ReadRange` marker (`0xFC` then `0x20`) is
accepted with `Ok(None)` — in particular it does not fail with
`Err(UnsetLength)`. -/
theorem claim_C10 (st : DecoderState) (buf : List Nat) (n l : Nat) :
    (rspReset ⟨st, buf, some n⟩).needed = some n ∧
    (rspSetPayloadLen (rspReset ⟨st, buf, some n⟩) l).fst = .error .SetLength ∧
    (rspSetPayloadLen (rspReset ⟨st, buf, some n⟩) l).snd
      = rspReset ⟨st, buf, some n⟩ ∧
    (rspReceive (rspReset ⟨DecoderState.Loading, buf, some n⟩)
        ESCAPE_CHAR).fst = .ok none ∧
    (rspReceive
        (rspReceive (rspReset ⟨DecoderState.Loading, buf, some n⟩)
            ESCAPE_CHAR).snd
        RES_RRANGE).fst = .ok none ∧
    (rspReceive
        (rspReceive (rspReset ⟨DecoderState.Loading, buf, some n⟩)
            ESCAPE_CHAR).snd
        RES_RRANGE).fst ≠ .error .UnsetLength := by
  have hstep : (rspReceive (rspReset ⟨DecoderState.Loading, buf, some n⟩)
      ESCAPE_CHAR).snd = ⟨DecoderState.Escape, [], some n⟩ := rfl
  have hmain : (rspReceive
      (rspReceive (rspReset ⟨DecoderState.Loading, buf, some n⟩)
          ESCAPE_CHAR).snd
      RES_RRANGE).fst = .ok none := by
    rw [hstep]
    by_cases hn : n = 1
    · subst hn
      decide
    · simp only [rspReceive, rspHandleEscape]
      norm_num [RES_RRANGE, ESCAPE_CHAR, RES_PONG, RES_OVERFLOW, RES_BADADDR,
        RES_INTERROR, RES_BADARGS, RES_OK, RES_UNKNOWN, RES_XFTIMEOUT,
        RES_XFEPE, RES_CHANGE_BAUD_FAIL, RES_CRCRX]
      unfold rspLoadSwallow rspLoadChar
      norm_num [Option.some.injEq]
      rw [if_neg hn]
      simp
  exact ⟨rfl, rfl, rfl, rfl, hmain, by rw [hmain]; simp⟩

/-- Witness for C10 at a decoder holding three buffered bytes with an armed
length of five. -/
theorem claim_C10_witness :
    (rspReset ⟨DecoderState.Loading, [1, 2, 3], some 5⟩).needed = some 5 ∧
    (rspSetPayloadLen (rspReset ⟨DecoderState.Loading, [1, 2, 3], some 5⟩)
        4).fst = .error .SetLength ∧
    (rspSetPayloadLen (rspReset ⟨DecoderState.Loading, [1, 2, 3], some 5⟩)
        4).snd = rspReset ⟨DecoderState.Loading, [1, 2, 3], some 5⟩ ∧
    (rspReceive (rspReset ⟨DecoderState.Loading, [1, 2, 3], some 5⟩)
        ESCAPE_CHAR).fst = .ok none ∧
    (rspReceive
        (rspReceive (rspReset ⟨DecoderState.Loading, [1, 2, 3], some 5⟩)
            ESCAPE_CHAR).snd
        RES_RRANGE).fst = .ok none ∧
    (rspReceive
        (rspReceive (rspReset ⟨DecoderState.Loading, [1, 2, 3], some 5⟩)
            ESCAPE_CHAR).snd
        RES_RRANGE).fst ≠ .error .UnsetLength :=
  claim_C10 DecoderState.Loading [1, 2, 3] 5 4
